import Mathlib

/-!
Shallow embedding of the videobot core (src/src/utils.ts and the scheduler
variant of src/src/bot.ts).  JS strings are modelled as Lean `String` /
`List Char`; each JS regular expression used by `URLUtils.extractVideoInfo`
is embedded as an executable position matcher that reproduces the regex
semantics (leftmost match, greedy quantifiers, optional scheme and `www.`
groups, trailing `\S*`).  Network effects are modelled by explicit
parameters: a redirect resolver `String → Option String` (`none` = fetch
failure), `Except Unit` fetch results, and a `Bool` for whether posting a
reply succeeded.
-/

/-- Character class `[a-zA-Z0-9_-]` used by the YouTube id capture groups. -/
def isIdChar (c : Char) : Bool :=
  c.isAlpha || c.isDigit || c == '_' || c == '-'

/-- Word characters `\w`, i.e. `[A-Za-z0-9_]`. -/
def isWordChar (c : Char) : Bool :=
  c.isAlpha || c.isDigit || c == '_'

/-- Class `[a-zA-Z0-9]` used by the TikTok short-link and Dailymotion ids. -/
def isAlnumChar (c : Char) : Bool :=
  c.isAlpha || c.isDigit

/-- Class `[\w.-]` used for TikTok user names. -/
def isUserChar (c : Char) : Bool :=
  isWordChar c || c == '.' || c == '-'

/-- JavaScript whitespace (`\s`): ASCII whitespace, NBSP, BOM, the Unicode
`Zs` spaces and the line separators. -/
def isJsSpace (c : Char) : Bool :=
  let n := c.toNat
  n == 0x20 || n == 0x09 || n == 0x0A || n == 0x0B || n == 0x0C || n == 0x0D ||
  n == 0xA0 || n == 0x1680 || (0x2000 ≤ n && n ≤ 0x200A) ||
  n == 0x2028 || n == 0x2029 || n == 0x202F || n == 0x205F || n == 0x3000 ||
  n == 0xFEFF

/-- Complement of `\s`, i.e. the `\S` class of the trailing `(?:\S*)` groups. -/
def isNonSpace (c : Char) : Bool := !(isJsSpace c)

/-- Characters matched by `.` (everything except line terminators). -/
def isDotChar (c : Char) : Bool :=
  let n := c.toNat
  !(n == 0x0A || n == 0x0D || n == 0x2028 || n == 0x2029)

/-- JS `String.prototype.includes` on code points. -/
def includesSub : List Char → List Char → Bool
  | [], sub => sub.isEmpty
  | c :: t, sub => sub.isPrefixOf (c :: t) || includesSub t sub

/-- Consume a literal pattern piece, failing when it is not a prefix. -/
def stripLit (pat : String) (l : List Char) : Option (List Char) :=
  if pat.toList.isPrefixOf l then some (l.drop pat.toList.length) else none

/-- Consume an optional literal pattern piece (a `(?:lit)?` group). -/
def dropLit (pat : String) (l : List Char) : List Char :=
  if pat.toList.isPrefixOf l then l.drop pat.toList.length else l

/-- The optional scheme group `(?:https?:\/\/)?`. -/
def dropScheme (l : List Char) : List Char :=
  if "https://".toList.isPrefixOf l then l.drop "https://".toList.length
  else if "http://".toList.isPrefixOf l then l.drop "http://".toList.length
  else l

/-- The optional `(?:www\.)?` group. -/
def dropWww (l : List Char) : List Char := dropLit "www." l

/-!
Each `try…At` function attempts one regex pattern anchored at the current
position `l` (a suffix of the scanned text).  On success it returns the pair
`(match0, capture)`: the full matched slice `match[0]` and the captured
identifier `match[1]`.  `findMatch` then scans positions left to right,
which is exactly what `String.prototype.match` does for a non-global regex.
-/

/-- Scan positions left to right and take the first position that matches. -/
def findMatch (f : List Char → Option (List Char × List Char)) :
    List Char → Option (List Char × List Char)
  | [] => f []
  | c :: t =>
    match f (c :: t) with
    | some r => some r
    | none => findMatch f t

/-- Given the remainder `rest` after the pattern consumed everything it
matches, `match[0]` is the consumed slice of the position suffix `l`. -/
def matchedSlice (l rest : List Char) : List Char :=
  l.take (l.length - rest.length)

/-- Pattern `(?:https?:\/\/)?(?:www\.)?youtube\.com\/watch\?v=([a-zA-Z0-9_-]{4,})(?:\S*)`. -/
def tryYoutubeWatchAt (l : List Char) : Option (List Char × List Char) :=
  match stripLit "youtube.com/watch?v=" (dropWww (dropScheme l)) with
  | none => none
  | some l3 =>
    let idl := l3.takeWhile isIdChar
    if 4 ≤ idl.length then
      some (matchedSlice l ((l3.dropWhile isIdChar).dropWhile isNonSpace), idl)
    else none

/-- Pattern `(?:https?:\/\/)?(?:www\.)?youtu\.be\/([a-zA-Z0-9_-]{4,})(?:\S*)`. -/
def tryYoutuBeAt (l : List Char) : Option (List Char × List Char) :=
  match stripLit "youtu.be/" (dropWww (dropScheme l)) with
  | none => none
  | some l3 =>
    let idl := l3.takeWhile isIdChar
    if 4 ≤ idl.length then
      some (matchedSlice l ((l3.dropWhile isIdChar).dropWhile isNonSpace), idl)
    else none

/-- Pattern `(?:https?:\/\/)?(?:www\.)?youtube\.com\/shorts\/([a-zA-Z0-9_-]{4,})(?:\S*)`. -/
def tryYoutubeShortsAt (l : List Char) : Option (List Char × List Char) :=
  match stripLit "youtube.com/shorts/" (dropWww (dropScheme l)) with
  | none => none
  | some l3 =>
    let idl := l3.takeWhile isIdChar
    if 4 ≤ idl.length then
      some (matchedSlice l ((l3.dropWhile isIdChar).dropWhile isNonSpace), idl)
    else none

/-- Pattern `(?:https?:\/\/)?(?:www\.)?vimeo\.com\/(?:video\/)?(\d+)(?:\S*)`. -/
def tryVimeoAt (l : List Char) : Option (List Char × List Char) :=
  match stripLit "vimeo.com/" (dropWww (dropScheme l)) with
  | none => none
  | some l3 =>
    let l4 := dropLit "video/" l3
    let idl := l4.takeWhile Char.isDigit
    if 1 ≤ idl.length then
      some (matchedSlice l ((l4.dropWhile Char.isDigit).dropWhile isNonSpace), idl)
    else none

/-- Tail `\/video\/(\d+)(?:\S*)` of the standard TikTok pattern, applied after
the greedy `.*` has consumed some characters. -/
def tiktokVideoTail (m : List Char) : Option (List Char × List Char) :=
  match stripLit "/video/" m with
  | none => none
  | some m2 =>
    let idl := m2.takeWhile Char.isDigit
    if 1 ≤ idl.length then
      some ((m2.dropWhile Char.isDigit).dropWhile isNonSpace, idl)
    else none

/-- Backtracking search for a greedy quantifier: try the largest amount of
consumed input first, shrinking until the remainder of the pattern matches. -/
def searchDown (f : Nat → Option (List Char × List Char)) :
    Nat → Option (List Char × List Char)
  | 0 => f 0
  | n + 1 =>
    match f (n + 1) with
    | some r => some r
    | none => searchDown f n

/-- Pattern `(?:https?:\/\/)?(?:www\.)?tiktok\.com\/.*\/video\/(\d+)(?:\S*)`
(the greedy `.*` cannot cross line terminators). -/
def tryTiktokStdAt (l : List Char) : Option (List Char × List Char) :=
  match stripLit "tiktok.com/" (dropWww (dropScheme l)) with
  | none => none
  | some l3 =>
    match searchDown (fun k => tiktokVideoTail (l3.drop k))
        (l3.takeWhile isDotChar).length with
    | some (rest, idl) => some (matchedSlice l rest, idl)
    | none => none

/-- Pattern `(?:https?:\/\/)?vm\.tiktok\.com\/([a-zA-Z0-9]+)(?:\/)?(?:\S*)`
(note: no optional `www.` group in the source regex). -/
def tryTiktokVmAt (l : List Char) : Option (List Char × List Char) :=
  match stripLit "vm.tiktok.com/" (dropScheme l) with
  | none => none
  | some l3 =>
    let idl := l3.takeWhile isAlnumChar
    if 1 ≤ idl.length then
      some (matchedSlice l
        ((dropLit "/" (l3.dropWhile isAlnumChar)).dropWhile isNonSpace), idl)
    else none

/-- Pattern `(?:https?:\/\/)?(?:www\.)?tiktok\.com\/t\/([a-zA-Z0-9]+)(?:\/)?(?:\S*)`. -/
def tryTiktokTAt (l : List Char) : Option (List Char × List Char) :=
  match stripLit "tiktok.com/t/" (dropWww (dropScheme l)) with
  | none => none
  | some l3 =>
    let idl := l3.takeWhile isAlnumChar
    if 1 ≤ idl.length then
      some (matchedSlice l
        ((dropLit "/" (l3.dropWhile isAlnumChar)).dropWhile isNonSpace), idl)
    else none

/-- Pattern `(?:https?:\/\/)?(?:www\.)?tiktok\.com\/@[\w.-]+\/video\/(\d+)(?:\S*)`. -/
def tryTiktokUserAt (l : List Char) : Option (List Char × List Char) :=
  match stripLit "tiktok.com/@" (dropWww (dropScheme l)) with
  | none => none
  | some l3 =>
    if 1 ≤ (l3.takeWhile isUserChar).length then
      match stripLit "/video/" (l3.dropWhile isUserChar) with
      | none => none
      | some l4 =>
        let idl := l4.takeWhile Char.isDigit
        if 1 ≤ idl.length then
          some (matchedSlice l
            ((l4.dropWhile Char.isDigit).dropWhile isNonSpace), idl)
        else none
    else none

/-- Pattern `(?:https?:\/\/)?(?:www\.)?twitch\.tv\/videos\/(\d+)(?:\S*)`. -/
def tryTwitchVideoAt (l : List Char) : Option (List Char × List Char) :=
  match stripLit "twitch.tv/videos/" (dropWww (dropScheme l)) with
  | none => none
  | some l3 =>
    let idl := l3.takeWhile Char.isDigit
    if 1 ≤ idl.length then
      some (matchedSlice l ((l3.dropWhile Char.isDigit).dropWhile isNonSpace), idl)
    else none

/-- First alternative `(?:https?:\/\/)?(?:www\.)?twitch\.tv\/\w+\/clip\/(\w+)` of
the Twitch clip regex; note there is no trailing `\S*` in this alternative. -/
def tryTwitchClip1At (l : List Char) : Option (List Char × List Char) :=
  match stripLit "twitch.tv/" (dropWww (dropScheme l)) with
  | none => none
  | some l3 =>
    if 1 ≤ (l3.takeWhile isWordChar).length then
      match stripLit "/clip/" (l3.dropWhile isWordChar) with
      | none => none
      | some l4 =>
        let idl := l4.takeWhile isWordChar
        if 1 ≤ idl.length then
          some (matchedSlice l (l4.dropWhile isWordChar), idl)
        else none
    else none

/-- Second alternative `(?:https?:\/\/)?clips\.twitch\.tv\/(\w+)(?:\S*)`
(no optional `www.`). -/
def tryTwitchClip2At (l : List Char) : Option (List Char × List Char) :=
  match stripLit "clips.twitch.tv/" (dropScheme l) with
  | none => none
  | some l3 =>
    let idl := l3.takeWhile isWordChar
    if 1 ≤ idl.length then
      some (matchedSlice l ((l3.dropWhile isWordChar).dropWhile isNonSpace), idl)
    else none

/-- The alternation of the two Twitch clip alternatives at one position. -/
def tryTwitchClipAt (l : List Char) : Option (List Char × List Char) :=
  match tryTwitchClip1At l with
  | some r => some r
  | none => tryTwitchClip2At l

/-- Pattern `(?:https?:\/\/)?(?:www\.)?dailymotion\.com\/video\/([a-zA-Z0-9]+)(?:\S*)`. -/
def tryDailymotionAt (l : List Char) : Option (List Char × List Char) :=
  match stripLit "dailymotion.com/video/" (dropWww (dropScheme l)) with
  | none => none
  | some l3 =>
    let idl := l3.takeWhile isAlnumChar
    if 1 ≤ idl.length then
      some (matchedSlice l ((l3.dropWhile isAlnumChar).dropWhile isNonSpace), idl)
    else none

/-- Result type of `URLUtils.extractVideoInfo`. -/
structure VideoUrlInfo where
  url : String
  platform : String
  id : String
  type : Option String
deriving DecidableEq

/-- `if (!fullUrl.startsWith('http')) fullUrl = 'https://' + fullUrl`. -/
def ensureProtocol (m0 : List Char) : List Char :=
  if "http".toList.isPrefixOf m0 then m0 else "https://".toList ++ m0

/-- Build the returned record from a match, as the source does. -/
def mkInfo (platform : String) (m0 idl : List Char) (ty : Option String) :
    VideoUrlInfo :=
  { url := String.mk (ensureProtocol m0)
    platform := platform
    id := String.mk idl
    type := ty }

/-- The `youtubePatterns` loop: three patterns tried in order over the text. -/
def youtubeMatchL (l : List Char) : Option (List Char × List Char) :=
  match findMatch tryYoutubeWatchAt l with
  | some r => some r
  | none =>
    match findMatch tryYoutuBeAt l with
    | some r => some r
    | none => findMatch tryYoutubeShortsAt l

/-- The `tiktokPatterns` loop: four patterns tried in order over the text. -/
def tiktokMatchL (l : List Char) : Option (List Char × List Char) :=
  match findMatch tryTiktokStdAt l with
  | some r => some r
  | none =>
    match findMatch tryTiktokVmAt l with
    | some r => some r
    | none =>
      match findMatch tryTiktokTAt l with
      | some r => some r
      | none => findMatch tryTiktokUserAt l

/-- `URLUtils.extractVideoInfo` on the code-point list of the input text. -/
def extractVideoInfoL (l : List Char) : Option VideoUrlInfo :=
  match youtubeMatchL l with
  | some (m0, idl) =>
    some (mkInfo "youtube" m0 idl
      (some (if includesSub m0 "/shorts/".toList then "short" else "video")))
  | none =>
    match findMatch tryVimeoAt l with
    | some (m0, idl) => some (mkInfo "vimeo" m0 idl none)
    | none =>
      match tiktokMatchL l with
      | some (m0, idl) => some (mkInfo "tiktok" m0 idl none)
      | none =>
        match findMatch tryTwitchVideoAt l with
        | some (m0, idl) => some (mkInfo "twitch" m0 idl (some "video"))
        | none =>
          match findMatch tryTwitchClipAt l with
          | some (m0, idl) => some (mkInfo "twitch" m0 idl (some "clip"))
          | none =>
            match findMatch tryDailymotionAt l with
            | some (m0, idl) => some (mkInfo "dailymotion" m0 idl none)
            | none => none

/-- `URLUtils.extractVideoInfo`. -/
def extractVideoInfo (s : String) : Option VideoUrlInfo :=
  extractVideoInfoL s.toList

/-!
Link Builder (`URLUtils.createPrivacyUrl`) and Redirect Resolver.  The
resolver is a parameter `String → Option String`: `none` models a failed
fetch in `resolveRedirect` (which catches the error and returns `null`);
`some u` models a successful resolution to the final URL `u`.  The second
component of the result counts how many resolution fetches were issued.
-/

/-- The condition guarding redirect resolution: a TikTok reference whose URL
`includes('/t/')` or `includes('vm.tiktok.com')`. -/
def isShortTikTok (info : VideoUrlInfo) : Bool :=
  info.platform == "tiktok" &&
    (includesSub info.url.toList "/t/".toList ||
     includesSub info.url.toList "vm.tiktok.com".toList)

/-- UTF-8 encoding of one code point, as a list of byte values. -/
def utf8BytesOfChar (c : Char) : List Nat :=
  let n := c.toNat
  if n < 0x80 then [n]
  else if n < 0x800 then [0xC0 + n / 0x40, 0x80 + n % 0x40]
  else if n < 0x10000 then
    [0xE0 + n / 0x1000, 0x80 + (n / 0x40) % 0x40, 0x80 + n % 0x40]
  else
    [0xF0 + n / 0x40000, 0x80 + (n / 0x1000) % 0x40,
     0x80 + (n / 0x40) % 0x40, 0x80 + n % 0x40]

/-- Upper-case hexadecimal digit. -/
def hexDigitChar (n : Nat) : Char :=
  if n < 10 then Char.ofNat (48 + n) else Char.ofNat (55 + n)

/-- Percent-encoding of one byte, `%XY`. -/
def percentByte (b : Nat) : List Char :=
  ['%', hexDigitChar (b / 16), hexDigitChar (b % 16)]

/-- Characters `encodeURIComponent` leaves unescaped:
letters, digits and `- _ . ! ~ * ' ( )` (39 is the apostrophe). -/
def isUriUnescaped (c : Char) : Bool :=
  c.isAlpha || c.isDigit || c == '-' || c == '_' || c == '.' || c == '!' ||
  c == '~' || c == '*' || c == Char.ofNat 39 || c == '(' || c == ')'

/-- JS `encodeURIComponent` on code points. -/
def encodeURIComponentL (l : List Char) : List Char :=
  l.flatMap fun c =>
    if isUriUnescaped c then [c] else (utf8BytesOfChar c).flatMap percentByte

/-- JS `encodeURIComponent` on strings. -/
def encodeURIComponentS (s : String) : String :=
  String.mk (encodeURIComponentL s.toList)

/-- The two final `return` statements of `createPrivacyUrl`: just the id for
YouTube, the percent-encoded full URL for every other platform. -/
def buildPrivacyLink (info : VideoUrlInfo) (domain : String) : String :=
  if info.platform = "youtube" then
    "https://" ++ domain ++ "/video?video=" ++ info.id
  else
    "https://" ++ domain ++ "/video?video=" ++ encodeURIComponentS info.url

/-- `URLUtils.createPrivacyUrl` on a `VideoUrlInfo` argument.  Returns the
built link and the number of redirect-resolution fetches performed. -/
def createPrivacyUrlInfo (resolve : String → Option String)
    (info : VideoUrlInfo) (domain : String) : String × Nat :=
  if isShortTikTok info then
    let info2 :=
      match resolve info.url with
      | some resolved =>
        match extractVideoInfo resolved with
        | some ri => ri
        | none => info
      | none => info
    (buildPrivacyLink info2 domain, 1)
  else
    (buildPrivacyLink info domain, 0)

/-- `URLUtils.createPrivacyUrl` on a string argument: extract first, fall
back to percent-encoding the raw string when extraction fails. -/
def createPrivacyUrl (resolve : String → Option String)
    (s : String) (domain : String) : String × Nat :=
  match extractVideoInfo s with
  | some info => createPrivacyUrlInfo resolve info domain
  | none => ("https://" ++ domain ++ "/video?video=" ++ encodeURIComponentS s, 0)

/-!
Reply Composer: `createUrlFacets` and `createReplyStructure` from the
scheduler variant of `bot.ts`.
-/

/-- Byte range of a link annotation. -/
structure FacetIndex where
  byteStart : Nat
  byteEnd : Nat
deriving DecidableEq

/-- One rich-text link annotation; `uri` is the single
`app.bsky.richtext.facet#link` feature of the facet. -/
structure Facet where
  index : FacetIndex
  uri : String
deriving DecidableEq

/-- UTF-8 byte length of one code point (`Buffer.byteLength` per character). -/
def utf8CharLen (c : Char) : Nat :=
  if c.toNat < 0x80 then 1
  else if c.toNat < 0x800 then 2
  else if c.toNat < 0x10000 then 3
  else 4

/-- `Buffer.byteLength(s, 'utf8')`. -/
def utf8Length (l : List Char) : Nat :=
  (l.map utf8CharLen).sum

/-- JS `String.prototype.indexOf` (position of the first occurrence). -/
def indexOfAux (pat : List Char) : List Char → Nat → Option Nat
  | [], i => if pat.isPrefixOf ([] : List Char) then some i else none
  | c :: t, i =>
    if pat.isPrefixOf (c :: t) then some i else indexOfAux pat t (i + 1)

/-- `createUrlFacets(text, url)`.  When `indexOf` returns `-1`,
`substring(0, -1)` is the empty string, which the `getD 0` reproduces. -/
def createUrlFacets (text url : List Char) : List Facet :=
  let urlStart := (indexOfAux url text 0).getD 0
  let byteStart := utf8Length (text.take urlStart)
  let byteEnd := byteStart + utf8Length url
  [{ index := { byteStart := byteStart, byteEnd := byteEnd }
     uri := String.mk url }]

/-- A `{uri, cid}` strong reference to a post. -/
structure StrongRef where
  uri : String
  cid : String
deriving DecidableEq

/-- The `reply` field of a post record: root and parent references. -/
structure ReplyRecord where
  root : StrongRef
  parent : StrongRef
deriving DecidableEq

/-- The slice of a candidate post that the modelled code reads: its strong
reference, body text, optional `record.reply`, and the optional
`embed.external.uri`. -/
structure CandidatePost where
  uri : String
  cid : String
  text : String
  reply : Option ReplyRecord
  embedUri : Option String
deriving DecidableEq

/-- `createReplyStructure(originalPost)`: a reply keeps the triggering
message's own thread root and gets the triggering message as parent; a
root-level post becomes both root and parent. -/
def createReplyStructure (post : CandidatePost) : ReplyRecord :=
  match post.reply with
  | some ri =>
    { root := ri.root, parent := { uri := post.uri, cid := post.cid } }
  | none =>
    { root := { uri := post.uri, cid := post.cid }
      parent := { uri := post.uri, cid := post.cid } }

/-!
Duplicate Guard: the `recentlyProcessed` set is modelled as a list of
distinct identifiers in insertion order (JS `Set` iterates in insertion
order, and `add` of a present element does not move it).  A thread fetch is
an `Except Unit ThreadView`; `Except.error` models a failed
`getPostThread` call.
-/

/-- One direct reply in a fetched thread: the optional author handle
reachable as `reply.post?.author?.handle`. -/
structure ThreadReply where
  authorHandle : Option String
deriving DecidableEq

/-- A fetched thread view: `none` models a thread value without a `replies`
field (the `'replies' in thread` check fails or the field is null). -/
structure ThreadView where
  replies : Option (List ThreadReply)
deriving DecidableEq

/-- `hasAlreadyReplied(postUri)`: scan the direct replies for one authored
by the bot handle; any fetch error is caught and yields `false`. -/
def hasAlreadyReplied (fetch : Except Unit ThreadView) (handle : String) :
    Bool :=
  match fetch with
  | .error _ => false
  | .ok tv =>
    match tv.replies with
    | none => false
    | some rs => rs.any fun r => r.authorHandle == some handle

/-- `CACHE_SIZE` of the scheduler variant. -/
def CACHE_SIZE : Nat := 100

/-- `addToProcessedCache(uri)`: insert, then when the size exceeds
`CACHE_SIZE`, keep only `entries.slice(-50)` (the 50 most recent). -/
def addToProcessedCache (cache : List String) (uri : String) : List String :=
  let c := if uri ∈ cache then cache else cache ++ [uri]
  if CACHE_SIZE < c.length then c.drop (c.length - 50) else c

/-- `containsHashtag(text)`: case-insensitive containment (ASCII lowering,
which covers the hashtags the bot is configured with). -/
def containsHashtag (text hashtag : String) : Bool :=
  includesSub (text.toList.map Char.toLower) (hashtag.toList.map Char.toLower)

/-!
Scan-cycle step for one candidate (`processPostIfNeeded` with its callees
`processPost`, `processComment` and `replyWithPrivacyLink`).  External
effects become parameters: `threadFetch` is the `getPostThread` outcome for
the duplicate check, `parentFetch` the parent lookup of `processComment`
(`Except.error` = fetch failed or no thread; `some u` carries the parent's
`embed.external.uri` when present), and `postOk` tells whether
`agent.post` succeeded.  `replyWithPrivacyLink` catches posting errors, so
a failed post only means no reply appears.
-/

/-- Outcome of `processPostIfNeeded` on one candidate: the new cache, whether
a reply was actually posted, and the boolean the function returns. -/
structure CycleOutcome where
  cache : List String
  replied : Bool
  returned : Bool
deriving DecidableEq

/-- `processPost(post, text)` of the scheduler variant: only the structured
`embed.external.uri` is consulted; a reply is dispatched only when it
extracts, and it lands only when posting succeeds. -/
def processPostV2 (embedUri : Option String) (postOk : Bool) : Bool :=
  match embedUri with
  | none => false
  | some u =>
    match extractVideoInfo u with
    | some _ => postOk
    | none => false

/-- `processComment(commentPost, text)` of the scheduler variant: fetch the
parent and consult only the parent's `embed.external.uri`. -/
def processCommentV2 (parentFetch : Except Unit (Option String))
    (postOk : Bool) : Bool :=
  match parentFetch with
  | .error _ => false
  | .ok none => false
  | .ok (some u) =>
    match extractVideoInfo u with
    | some _ => postOk
    | none => false

/-- `processPostIfNeeded(post)`: hashtag filter, fast-path cache check,
authoritative thread check, then cache insertion followed by the reply
attempt.  Note the source inserts into the cache before dispatching. -/
def processPostIfNeeded (hashtag handle : String) (cache : List String)
    (post : CandidatePost) (threadFetch : Except Unit ThreadView)
    (parentFetch : Except Unit (Option String)) (postOk : Bool) :
    CycleOutcome :=
  if !containsHashtag post.text hashtag then
    { cache := cache, replied := false, returned := false }
  else if post.uri ∈ cache then
    { cache := cache, replied := false, returned := false }
  else if hasAlreadyReplied threadFetch handle then
    { cache := cache, replied := false, returned := false }
  else
    let cache2 := addToProcessedCache cache post.uri
    let replied :=
      match post.reply with
      | some _ => processCommentV2 parentFetch postOk
      | none => processPostV2 post.embedUri postOk
    { cache := cache2, replied := replied, returned := true }

/-!
Reference extraction from a parent post in the first bot variant
(`processComment`, src/src/bot.ts lines 200-231): raw body text first, then
the structured `embed.external.uri`, then the facet link URIs in order.
-/

/-- First facet link URI that extracts to a video reference. -/
def firstVideoMatch : List String → Option VideoUrlInfo
  | [] => none
  | u :: rest =>
    match extractVideoInfo u with
    | some v => some v
    | none => firstVideoMatch rest

/-- The source-selection sequence of the first variant's `processComment`:
text, then embed record, then facets. -/
def extractFromParentV1 (text : String) (embedUri : Option String)
    (facetUris : List String) : Option VideoUrlInfo :=
  let v1 := extractVideoInfo text
  let v2 :=
    match v1 with
    | some v => some v
    | none =>
      match embedUri with
      | some u => extractVideoInfo u
      | none => none
  match v2 with
  | some v => some v
  | none => firstVideoMatch facetUris

/-!
General helper lemmas about the matching combinators.
-/

theorem isPrefixOf_append_self (a b : List Char) :
    a.isPrefixOf (a ++ b) = true := by
  rw [List.isPrefixOf_iff_prefix]
  exact List.prefix_append a b

theorem findMatch_pred {P : List Char × List Char → Prop}
    {f : List Char → Option (List Char × List Char)}
    (hf : ∀ l r, f l = some r → P r) :
    ∀ l r, findMatch f l = some r → P r := by
  intro l
  induction l with
  | nil =>
    intro r h
    exact hf [] r (by simpa [findMatch] using h)
  | cons c t ih =>
    intro r h
    cases hf0 : f (c :: t) with
    | some x =>
      simp only [findMatch, hf0] at h
      exact Option.some.inj h ▸ hf _ _ hf0
    | none =>
      simp only [findMatch, hf0] at h
      exact ih r h

theorem findMatch_of_here {f : List Char → Option (List Char × List Char)}
    {l : List Char} {r : List Char × List Char} (h : f l = some r) :
    findMatch f l = some r := by
  cases l with
  | nil => simpa [findMatch] using h
  | cons c t => simp [findMatch, h]

theorem takeWhile_append_of_all {p : Char → Bool} {xs : List Char}
    (ys : List Char) (h : ∀ c ∈ xs, p c = true) :
    (xs ++ ys).takeWhile p = xs ++ ys.takeWhile p := by
  induction xs with
  | nil => simp
  | cons a t ih =>
    have ha := h a (by simp)
    simp only [List.cons_append, List.takeWhile_cons, ha, if_pos]
    rw [ih fun c hc => h c (by simp [hc])]

theorem dropWhile_append_of_all {p : Char → Bool} {xs : List Char}
    (ys : List Char) (h : ∀ c ∈ xs, p c = true) :
    (xs ++ ys).dropWhile p = ys.dropWhile p := by
  induction xs with
  | nil => simp
  | cons a t ih =>
    have ha := h a (by simp)
    simp only [List.cons_append, List.dropWhile_cons, ha, if_pos]
    exact ih fun c hc => h c (by simp [hc])

/-!
Claim C6 — bounded cache with batched eviction.
-/

/-- C6: an insertion that pushes the duplicate-guard cache past its capacity
of 100 trims it to exactly the 50 most-recently-inserted identifiers, kept
in insertion order, and after every insertion the size is at most 100. -/
theorem addToProcessedCache_eviction (cache : List String) (uri : String) :
    (addToProcessedCache cache uri).length ≤ CACHE_SIZE ∧
    (uri ∉ cache → CACHE_SIZE ≤ cache.length →
      addToProcessedCache cache uri =
        (cache ++ [uri]).drop (cache.length + 1 - 50) ∧
      (addToProcessedCache cache uri).length = 50) := by
  constructor
  · simp only [addToProcessedCache, CACHE_SIZE]
    split <;> split
    all_goals first
      | (rw [List.length_drop]; omega)
      | omega
  · intro hmem hlen
    have hlen2 : (cache ++ [uri]).length = cache.length + 1 := by
      simp [List.length_append]
    have hc : 100 < (cache ++ [uri]).length := by
      unfold CACHE_SIZE at hlen; omega
    have h1 : addToProcessedCache cache uri =
        (cache ++ [uri]).drop ((cache ++ [uri]).length - 50) := by
      simp only [addToProcessedCache, CACHE_SIZE, if_neg hmem, if_pos hc]
    constructor
    · rw [h1, hlen2]
    · rw [h1, List.length_drop, hlen2]
      unfold CACHE_SIZE at hlen
      omega

/-- Concrete 100-element cache used to exercise the eviction boundary. -/
def cacheAtCapacity : List String :=
  (List.range 100).map fun n => String.mk [Char.ofNat n]

theorem addToProcessedCache_eviction_witness :
    ("x" ∉ cacheAtCapacity) ∧ CACHE_SIZE ≤ cacheAtCapacity.length ∧
    addToProcessedCache cacheAtCapacity "x" =
      (cacheAtCapacity ++ ["x"]).drop (cacheAtCapacity.length + 1 - 50) ∧
    (addToProcessedCache cacheAtCapacity "x").length = 50 :=
  ⟨by decide, by decide,
    (addToProcessedCache_eviction cacheAtCapacity "x").2 (by decide) (by decide)⟩

/-!
Claim C8 — thread linkage of the composed reply.
-/

/-- C8: when the triggering message is a reply, the outgoing reply keeps the
triggering message's own thread root and takes the triggering message as
parent; for a root-level post, both root and parent are the triggering
message itself. -/
theorem createReplyStructure_threading (uri cid text : String)
    (emb : Option String) (ri : ReplyRecord) :
    createReplyStructure ⟨uri, cid, text, some ri, emb⟩ =
      { root := ri.root, parent := ⟨uri, cid⟩ } ∧
    createReplyStructure ⟨uri, cid, text, none, emb⟩ =
      { root := ⟨uri, cid⟩, parent := ⟨uri, cid⟩ } :=
  ⟨rfl, rfl⟩

/-!
Claim C5 — redirect-resolution failure degrades, never aborts.
-/

/-- C5: with a failing resolver (every fetch errors out), `createPrivacyUrl`
still returns the privacy link built from the original, unresolved
reference, and at most one resolution fetch is ever issued. -/
theorem createPrivacyUrl_resolveFailure (info : VideoUrlInfo)
    (domain : String) :
    createPrivacyUrlInfo (fun _ => none) info domain =
      (buildPrivacyLink info domain, if isShortTikTok info then 1 else 0) ∧
    (createPrivacyUrlInfo (fun _ => none) info domain).2 ≤ 1 := by
  constructor
  · simp only [createPrivacyUrlInfo]
    split <;> simp
  · simp only [createPrivacyUrlInfo]
    split <;> simp

/-!
Claim C9 — shape of the built privacy link.
-/

/-- C9: outside the TikTok short-link resolution path, the built privacy
link is `https://domain/video?video=id` for YouTube references and
`https://domain/video?video=encodeURIComponent(url)` for every other
platform, and no resolution fetch happens. -/
theorem createPrivacyUrl_linkShapes (resolve : String → Option String)
    (info : VideoUrlInfo) (domain : String)
    (h : isShortTikTok info = false) :
    createPrivacyUrlInfo resolve info domain =
      ((if info.platform = "youtube" then
          "https://" ++ domain ++ "/video?video=" ++ info.id
        else
          "https://" ++ domain ++ "/video?video=" ++
            encodeURIComponentS info.url), 0) := by
  simp [createPrivacyUrlInfo, h, buildPrivacyLink]

/-- The end-to-end example reference: platform A text with an 11-character
identifier. -/
def endToEndInfo : VideoUrlInfo :=
  ⟨"https://www.youtube.com/watch?v=ABCDEFGHIJK", "youtube", "ABCDEFGHIJK",
    some "video"⟩

theorem createPrivacyUrl_linkShapes_witness :
    extractVideoInfo "#videoprivacy https://www.youtube.com/watch?v=ABCDEFGHIJK" =
      some endToEndInfo ∧
    isShortTikTok endToEndInfo = false ∧
    createPrivacyUrlInfo (fun _ => none) endToEndInfo "priv.example" =
      ("https://priv.example/video?video=ABCDEFGHIJK", 0) :=
  ⟨rfl, rfl,
    (createPrivacyUrl_linkShapes (fun _ => none) endToEndInfo "priv.example"
      rfl).trans (by decide)⟩

/-!
Claim C1 — timing of the fast-path cache insertion relative to dispatch.
-/

/-- Candidate used to exercise the cache-insertion timing: hashtag present,
root-level post, YouTube embed. -/
def freshCandidate : CandidatePost :=
  ⟨"at://did:plc:alice/app.bsky.feed.post/1", "cid1",
   "#videoprivacy look at this", none,
   some "https://www.youtube.com/watch?v=dQw4w9WgXcQ"⟩

/-- C1 counterexample: the post passes both duplicate checks, posting the
reply fails (`postOk = false`, so no reply appears), and yet the message
identifier ends up in the fast-path cache — it was inserted before the
dispatch, so the cache is not left unchanged on failure. -/
theorem processPostIfNeeded_cacheOnFailure_cex :
    processPostIfNeeded "#videoprivacy" "bot.example" [] freshCandidate
        (Except.ok ⟨some []⟩) (Except.ok none) false =
      { cache := [freshCandidate.uri], replied := false, returned := true } ∧
    freshCandidate.uri ∈
      (processPostIfNeeded "#videoprivacy" "bot.example" [] freshCandidate
        (Except.ok ⟨some []⟩) (Except.ok none) false).cache := by
  constructor
  · rfl
  · decide

/-- C1 amended: for every candidate that passes the hashtag filter and both
duplicate checks, the identifier is inserted into the fast-path cache
before the reply attempt, so the resulting cache equals
`addToProcessedCache cache uri` whether or not posting succeeds. -/
theorem processPostIfNeeded_cacheInsertedRegardless
    (hashtag handle : String) (cache : List String) (post : CandidatePost)
    (tf : Except Unit ThreadView) (pf : Except Unit (Option String))
    (postOk : Bool)
    (htag : containsHashtag post.text hashtag = true)
    (hmem : post.uri ∉ cache)
    (hrep : hasAlreadyReplied tf handle = false) :
    (processPostIfNeeded hashtag handle cache post tf pf postOk).cache =
      addToProcessedCache cache post.uri := by
  simp [processPostIfNeeded, htag, hmem, hrep]

theorem processPostIfNeeded_cacheInsertedRegardless_witness :
    (processPostIfNeeded "#videoprivacy" "bot.example" [] freshCandidate
        (Except.ok ⟨some []⟩) (Except.ok none) false).cache =
      addToProcessedCache [] freshCandidate.uri :=
  processPostIfNeeded_cacheInsertedRegardless _ _ _ _ _ _ _
    (by decide) (by decide) (by decide)

/-!
Claim C10 — thread-fetch failure in the authoritative duplicate check.
-/

/-- C10: when fetching the thread fails, `hasAlreadyReplied` answers
`false`, and consequently a candidate absent from the fast-path cache goes
on to be processed — an already-answered message can receive a second
reply after a transient fetch failure. -/
theorem hasAlreadyReplied_fetchError :
    (∀ handle : String, hasAlreadyReplied (Except.error ()) handle = false) ∧
    (∀ (hashtag handle : String) (cache : List String)
        (post : CandidatePost) (pf : Except Unit (Option String))
        (u : String) (v : VideoUrlInfo),
      containsHashtag post.text hashtag = true →
      post.uri ∉ cache →
      post.reply = none →
      post.embedUri = some u →
      extractVideoInfo u = some v →
      (processPostIfNeeded hashtag handle cache post (Except.error ()) pf
        true).replied = true) := by
  constructor
  · intro handle; rfl
  · intro hashtag handle cache post pf u v htag hmem hrep hemb hext
    simp [processPostIfNeeded, htag, hmem, hasAlreadyReplied, hrep,
      processPostV2, hemb, hext]

theorem hasAlreadyReplied_fetchError_witness :
    hasAlreadyReplied (Except.error ()) "bot.example" = false ∧
    (processPostIfNeeded "#videoprivacy" "bot.example" [] freshCandidate
        (Except.error ()) (Except.ok none) true).replied = true :=
  ⟨hasAlreadyReplied_fetchError.1 "bot.example",
   hasAlreadyReplied_fetchError.2 "#videoprivacy" "bot.example" []
     freshCandidate (Except.ok none)
     "https://www.youtube.com/watch?v=dQw4w9WgXcQ"
     ⟨"https://www.youtube.com/watch?v=dQw4w9WgXcQ", "youtube", "dQw4w9WgXcQ",
       some "video"⟩
     (by decide) (by decide) rfl rfl rfl⟩

/-!
Claim C4 — source-selection priority during extraction.
-/

/-- C4 counterexample: the parent's structured link record (embed) points to
YouTube (platform A) while its raw body text carries a Vimeo URL
(platform B).  The first variant's `processComment` extraction returns the
Vimeo reference: raw text is consulted before the structured record. -/
theorem extractFromParentV1_textFirst_cex :
    extractFromParentV1 "watch this https://vimeo.com/12345"
        (some "https://www.youtube.com/watch?v=dQw4w9WgXcQ") [] =
      some ⟨"https://vimeo.com/12345", "vimeo", "12345", none⟩ ∧
    extractVideoInfo "https://www.youtube.com/watch?v=dQw4w9WgXcQ" =
      some ⟨"https://www.youtube.com/watch?v=dQw4w9WgXcQ", "youtube",
            "dQw4w9WgXcQ", some "video"⟩ ∧
    ("vimeo" : String) ≠ "youtube" :=
  ⟨rfl, rfl, by decide⟩

/-- C4 amended: extraction from the parent in the first variant evaluates
raw body text first, then the structured external-link record, then the
facet URIs (first hit wins); the scheduler variant's `processPost` consults
only the structured record, never the text or facets. -/
theorem extractFromParentV1_order (text : String) (e : Option String)
    (fs : List String) :
    (∀ v, extractVideoInfo text = some v →
      extractFromParentV1 text e fs = some v) ∧
    (∀ u v, extractVideoInfo text = none → e = some u →
      extractVideoInfo u = some v → extractFromParentV1 text e fs = some v) ∧
    (extractVideoInfo text = none → e = none →
      extractFromParentV1 text e fs = firstVideoMatch fs) ∧
    (∀ postOk : Bool, processPostV2 none postOk = false) := by
  refine ⟨?_, ?_, ?_, ?_⟩
  · intro v hv; simp [extractFromParentV1, hv]
  · intro u v ht he hu; simp [extractFromParentV1, ht, he, hu]
  · intro ht he; simp [extractFromParentV1, ht, he]
  · intro postOk; rfl

theorem extractFromParentV1_order_witness :
    extractFromParentV1 "#videoprivacy please"
        (some "https://youtu.be/abcd1234") ["https://vimeo.com/1"] =
      some ⟨"https://youtu.be/abcd1234", "youtube", "abcd1234",
            some "video"⟩ :=
  (extractFromParentV1_order "#videoprivacy please"
      (some "https://youtu.be/abcd1234") ["https://vimeo.com/1"]).2.1
    "https://youtu.be/abcd1234" _ rfl rfl rfl

/-!
Claim C2 — minimum captured identifier length of the YouTube recognizers.
-/

theorem tryYoutubeWatchAt_idLen {l : List Char} {r : List Char × List Char}
    (h : tryYoutubeWatchAt l = some r) : 4 ≤ r.2.length := by
  unfold tryYoutubeWatchAt at h
  cases hs : stripLit "youtube.com/watch?v=" (dropWww (dropScheme l)) with
  | none => rw [hs] at h; cases h
  | some l3 =>
    rw [hs] at h
    simp only at h
    by_cases hlen : 4 ≤ (l3.takeWhile isIdChar).length
    · rw [if_pos hlen] at h
      cases h
      exact hlen
    · rw [if_neg hlen] at h
      cases h

theorem tryYoutuBeAt_idLen {l : List Char} {r : List Char × List Char}
    (h : tryYoutuBeAt l = some r) : 4 ≤ r.2.length := by
  unfold tryYoutuBeAt at h
  cases hs : stripLit "youtu.be/" (dropWww (dropScheme l)) with
  | none => rw [hs] at h; cases h
  | some l3 =>
    rw [hs] at h
    simp only at h
    by_cases hlen : 4 ≤ (l3.takeWhile isIdChar).length
    · rw [if_pos hlen] at h
      cases h
      exact hlen
    · rw [if_neg hlen] at h
      cases h

theorem tryYoutubeShortsAt_idLen {l : List Char} {r : List Char × List Char}
    (h : tryYoutubeShortsAt l = some r) : 4 ≤ r.2.length := by
  unfold tryYoutubeShortsAt at h
  cases hs : stripLit "youtube.com/shorts/" (dropWww (dropScheme l)) with
  | none => rw [hs] at h; cases h
  | some l3 =>
    rw [hs] at h
    simp only at h
    by_cases hlen : 4 ≤ (l3.takeWhile isIdChar).length
    · rw [if_pos hlen] at h
      cases h
      exact hlen
    · rw [if_neg hlen] at h
      cases h

theorem youtubeMatchL_idLen {l : List Char} {r : List Char × List Char}
    (h : youtubeMatchL l = some r) : 4 ≤ r.2.length := by
  unfold youtubeMatchL at h
  cases h1 : findMatch tryYoutubeWatchAt l with
  | some x =>
    rw [h1] at h
    cases h
    exact findMatch_pred (fun _ _ hr => tryYoutubeWatchAt_idLen hr) l _ h1
  | none =>
    rw [h1] at h
    simp only at h
    cases h2 : findMatch tryYoutuBeAt l with
    | some x =>
      rw [h2] at h
      cases h
      exact findMatch_pred (fun _ _ hr => tryYoutuBeAt_idLen hr) l _ h2
    | none =>
      rw [h2] at h
      simp only at h
      exact findMatch_pred (fun _ _ hr => tryYoutubeShortsAt_idLen hr) l _ h

/-- A reference produced by one of the non-YouTube branches never carries
the platform tag `"youtube"`. -/
theorem extract_tail_platform {l : List Char} {info : VideoUrlInfo}
    (hy : youtubeMatchL l = none) (h : extractVideoInfoL l = some info) :
    info.platform ≠ "youtube" := by
  unfold extractVideoInfoL at h
  rw [hy] at h
  simp only at h
  repeat' split at h
  all_goals first
    | exact Option.noConfusion h
    | (injection h with h2; subst h2; simp only [mkInfo]; decide)

/-- C2 amended: the YouTube recognizers enforce a minimum identifier length
of 4 (the `{4,}` bound of the capture groups), not 11: every extracted
reference tagged `"youtube"` has an identifier of at least 4 characters. -/
theorem extractVideoInfo_youtubeIdMin (t : String) (info : VideoUrlInfo)
    (h : extractVideoInfo t = some info) (hp : info.platform = "youtube") :
    4 ≤ info.id.length := by
  unfold extractVideoInfo extractVideoInfoL at h
  cases hy : youtubeMatchL t.toList with
  | some r =>
    obtain ⟨m0, idl⟩ := r
    rw [hy] at h
    simp only at h
    injection h with h2
    subst h2
    exact youtubeMatchL_idLen hy
  | none =>
    have hne := extract_tail_platform hy (by rw [← h]; rfl)
    exact absurd hp hne

/-- C2 counterexample: a URL truncated to a 4-character identifier (shorter
than the 11-character YouTube id length) still yields a reference. -/
theorem extractVideoInfo_shortId_cex :
    extractVideoInfo "#videoprivacy www.youtube.com/watch?v=SmmL" =
      some ⟨"https://www.youtube.com/watch?v=SmmL", "youtube", "SmmL",
            some "video"⟩ ∧
    ("SmmL" : String).length < 11 :=
  ⟨rfl, by decide⟩

theorem extractVideoInfo_youtubeIdMin_witness :
    extractVideoInfo "https://youtu.be/abcd" =
      some ⟨"https://youtu.be/abcd", "youtube", "abcd", some "video"⟩ ∧
    4 ≤ ("abcd" : String).length :=
  ⟨rfl, extractVideoInfo_youtubeIdMin "https://youtu.be/abcd"
    ⟨"https://youtu.be/abcd", "youtube", "abcd", some "video"⟩ rfl rfl⟩

/-!
Claim C3 — minimal identifier capture but suffix-preserving canonical URL.
-/

theorem stripLit_append (p : String) (r : List Char) :
    stripLit p (p.toList ++ r) = some r := by
  unfold stripLit
  rw [if_pos (isPrefixOf_append_self _ _), List.drop_left]

theorem dropLit_append (p : String) (r : List Char) :
    dropLit p (p.toList ++ r) = r := by
  unfold dropLit
  rw [if_pos (isPrefixOf_append_self _ _), List.drop_left]

theorem dropScheme_https (r : List Char) :
    dropScheme ("https://".toList ++ r) = r := by
  unfold dropScheme
  rw [if_pos (isPrefixOf_append_self _ _), List.drop_left]

/-- C3 amended: for a YouTube watch URL followed by a non-whitespace
query/tracking suffix, extraction captures only the minimal identifier
token as `id`, but the canonical `url` it returns keeps the trailing
suffix — the match extends across the whole non-whitespace run, so the
suffix is preserved, not discarded. -/
theorem extractVideoInfo_keepsSuffix (id sfx : List Char)
    (hid : id.all isIdChar = true)
    (hlen : 4 ≤ id.length)
    (hhead : sfx.head?.all (fun c => !isIdChar c) = true)
    (hsfx : sfx.all isNonSpace = true)
    (hsh : includesSub
      ("https://www.youtube.com/watch?v=".toList ++ (id ++ sfx))
      "/shorts/".toList = false) :
    extractVideoInfoL
        ("https://www.youtube.com/watch?v=".toList ++ (id ++ sfx)) =
      some ⟨String.mk ("https://www.youtube.com/watch?v=".toList ++ (id ++ sfx)),
            "youtube", String.mk id, some "video"⟩ := by
  have hidm : ∀ c ∈ id, isIdChar c = true := List.all_eq_true.mp hid
  have hsfxm : ∀ c ∈ sfx, isNonSpace c = true := List.all_eq_true.mp hsfx
  have hsplit : "https://www.youtube.com/watch?v=".toList
      = "https://".toList ++ ("www.".toList ++ "youtube.com/watch?v=".toList) :=
    rfl
  have hassoc : "https://www.youtube.com/watch?v=".toList ++ (id ++ sfx)
      = "https://".toList ++ ("www.".toList ++
          ("youtube.com/watch?v=".toList ++ (id ++ sfx))) := by
    rw [hsplit, List.append_assoc, List.append_assoc]
  have htake : (id ++ sfx).takeWhile isIdChar = id := by
    rw [takeWhile_append_of_all sfx hidm]
    cases sfx with
    | nil => simp
    | cons c r =>
      have hc : isIdChar c = false := by simpa using hhead
      simp [List.takeWhile_cons, hc]
  have hdrop : (id ++ sfx).dropWhile isIdChar = sfx := by
    rw [dropWhile_append_of_all sfx hidm]
    cases sfx with
    | nil => rfl
    | cons c r =>
      have hc : isIdChar c = false := by simpa using hhead
      simp [List.dropWhile_cons, hc]
  have hrest : sfx.dropWhile isNonSpace = [] :=
    List.dropWhile_eq_nil_iff.mpr hsfxm
  have hproto : ensureProtocol
      ("https://www.youtube.com/watch?v=".toList ++ (id ++ sfx))
      = "https://www.youtube.com/watch?v=".toList ++ (id ++ sfx) := by
    have hsplit2 : "https://www.youtube.com/watch?v=".toList
        = "http".toList ++ "s://www.youtube.com/watch?v=".toList := rfl
    unfold ensureProtocol
    rw [if_pos ?hpre]
    case hpre =>
      rw [hsplit2, List.append_assoc]
      exact isPrefixOf_append_self _ _
  have htry : tryYoutubeWatchAt
      ("https://www.youtube.com/watch?v=".toList ++ (id ++ sfx)) =
      some ("https://www.youtube.com/watch?v=".toList ++ (id ++ sfx), id) := by
    unfold tryYoutubeWatchAt
    rw [hassoc, dropScheme_https]
    rw [show dropWww ("www.".toList ++
          ("youtube.com/watch?v=".toList ++ (id ++ sfx)))
        = "youtube.com/watch?v=".toList ++ (id ++ sfx) from
      dropLit_append "www." _]
    rw [stripLit_append]
    simp only [htake, hdrop, hrest, if_pos hlen, matchedSlice,
      List.length_nil, Nat.sub_zero, List.take_length]
  have hym : youtubeMatchL
      ("https://www.youtube.com/watch?v=".toList ++ (id ++ sfx)) =
      some ("https://www.youtube.com/watch?v=".toList ++ (id ++ sfx), id) := by
    unfold youtubeMatchL
    rw [findMatch_of_here htry]
  unfold extractVideoInfoL
  rw [hym]
  simp only [hsh, mkInfo, hproto, Bool.false_eq_true, if_false]

theorem extractVideoInfo_keepsSuffix_witness :
    extractVideoInfoL
        ("https://www.youtube.com/watch?v=".toList ++
          ("abcdefghijk".toList ++ "&utm_source=x".toList)) =
      some ⟨String.mk ("https://www.youtube.com/watch?v=".toList ++
              ("abcdefghijk".toList ++ "&utm_source=x".toList)),
            "youtube", String.mk "abcdefghijk".toList, some "video"⟩ :=
  extractVideoInfo_keepsSuffix "abcdefghijk".toList "&utm_source=x".toList
    (by decide) (by decide) (by decide) (by decide) (by decide)

/-- C3 counterexample: a tracking suffix `&t=10s` after the identifier is
preserved in the returned canonical URL (the claim says it is discarded),
while the identifier itself is captured minimally. -/
theorem extractVideoInfo_suffixPreserved_cex :
    extractVideoInfo "https://www.youtube.com/watch?v=dQw4w9WgXcQ&t=10s" =
      some ⟨"https://www.youtube.com/watch?v=dQw4w9WgXcQ&t=10s", "youtube",
            "dQw4w9WgXcQ", some "video"⟩ ∧
    includesSub "https://www.youtube.com/watch?v=dQw4w9WgXcQ&t=10s".toList
      "&t=10s".toList = true :=
  ⟨rfl, by decide⟩

/-!
Claim C7 — byte-offset link annotation.
-/

theorem indexOfAux_append (pat pre : List Char) (hne : pat ≠ [])
    (hno : ∀ j, j < pre.length →
      pat.isPrefixOf ((pre ++ pat).drop j) = false) :
    ∀ i, indexOfAux pat (pre ++ pat) i = some (i + pre.length) := by
  induction pre with
  | nil =>
    intro i
    cases pat with
    | nil => exact absurd rfl hne
    | cons c t =>
      have hself : (c :: t).isPrefixOf (c :: t) = true := by
        have h2 := isPrefixOf_append_self (c :: t) []
        rw [List.append_nil] at h2
        exact h2
      simp [indexOfAux, hself]
  | cons c pr ih =>
    intro i
    have h0 : pat.isPrefixOf (c :: (pr ++ pat)) = false := by
      have := hno 0 (by simp)
      simpa using this
    have hstep : ∀ j, j < pr.length →
        pat.isPrefixOf ((pr ++ pat).drop j) = false := by
      intro j hj
      have := hno (j + 1) (by simp; omega)
      simpa using this
    calc indexOfAux pat (c :: pr ++ pat) i
        = indexOfAux pat (pr ++ pat) (i + 1) := by
          simp [List.cons_append, indexOfAux, h0]
      _ = some (i + 1 + pr.length) := ih hstep (i + 1)
      _ = some (i + (c :: pr).length) := by
          simp [List.length_cons]; omega

/-- C7: for a reply text consisting of any prefix followed by the privacy
URL (the URL occurring nowhere earlier), the attached link annotation
starts at the UTF-8 byte length of the prefix and ends after the UTF-8
byte length of the URL — encoded bytes, not characters. -/
theorem createUrlFacets_byteOffsets (pre url : List Char) (hne : url ≠ [])
    (hno : ∀ j, j < pre.length →
      url.isPrefixOf ((pre ++ url).drop j) = false) :
    createUrlFacets (pre ++ url) url =
      [⟨⟨utf8Length pre, utf8Length pre + utf8Length url⟩, String.mk url⟩] := by
  unfold createUrlFacets
  rw [indexOfAux_append url pre hne hno 0]
  simp only [Option.getD_some, Nat.zero_add, List.take_left]

theorem createUrlFacets_byteOffsets_witness :
    createUrlFacets
        ("Vidéo für dich: ".toList ++
          "https://priv.example/video?video=abc123".toList)
        "https://priv.example/video?video=abc123".toList =
      [⟨⟨18, 57⟩, "https://priv.example/video?video=abc123"⟩] ∧
    ("Vidéo für dich: ".toList).length = 16 ∧
    utf8Length ("Vidéo für dich: ".toList) = 18 :=
  ⟨(createUrlFacets_byteOffsets "Vidéo für dich: ".toList
      "https://priv.example/video?video=abc123".toList
      (by decide) (by decide)).trans (by decide),
   by decide, by decide⟩
